import Mathlib

/-!
Verification of the session lifecycle controller of `action-upterm`.

This file gives a shallow embedding of the pure decision logic of
`src/index.ts` (input validation, architecture mapping, allowed-user
de-duplication and quoting, the dependency-install call structure, the
known_hosts provisioning of the earlier `run` variant, readiness polling
and the monitor loop) and of `src/helpers.ts` (`execShellCommand`'s
empty-command guard), and proves or refutes the specified properties.

External effects (filesystem observations, child-process outcomes) are
passed in explicitly as data; machine behaviour of JavaScript string
primitives (`parseInt`, `trim`, `split`, `Set`) is modelled faithfully.
-/

namespace ActionUpterm

/-! ## JavaScript string primitives -/

/-- Characters treated as whitespace by JavaScript's `trim`, `\s` and
`parseInt` leading-whitespace skipping (ASCII whitespace plus NBSP). -/
def isJsWhitespace (c : Char) : Bool :=
  c = ' ' || c = '\t' || c = '\n' || c = '\r' || c = '\x0b' || c = '\x0c' || c = '\u00A0'

/-- JavaScript `String.prototype.trim`. -/
def jsTrim (s : String) : String :=
  ⟨((s.data.dropWhile isJsWhitespace).reverse.dropWhile isJsWhitespace).reverse⟩

/-- Numeric value of a base-10 digit list. -/
def digitsToNat (l : List Char) : Nat :=
  l.foldl (fun a c => a * 10 + (c.toNat - 48)) 0

/-- JavaScript `parseInt(s, 10)`: skip leading whitespace, read an optional
sign and then the longest prefix of decimal digits; `none` models `NaN`
(no digits at all).  Trailing non-digit characters are ignored, which is
why `parseInt("12.5", 10) = 12`. -/
def jsParseInt10 (s : String) : Option Int :=
  let cs := s.data.dropWhile isJsWhitespace
  let signAndRest : Int × List Char :=
    match cs with
    | '-' :: rest => (-1, rest)
    | '+' :: rest => (1, rest)
    | _ => (1, cs)
  let digits := signAndRest.2.takeWhile Char.isDigit
  if digits.isEmpty then none
  else some (signAndRest.1 * (digitsToNat digits : Int))

/-! ## Input validation (`validateInputs`, src/index.ts lines 94-107) -/

/-- The fixed error message for an invalid `wait-timeout-minutes` input. -/
def timeoutErrMsg : String :=
  "wait-timeout-minutes must be a valid positive integer not exceeding 1440 (24 hours)"

/-- The fixed error message for a missing `upterm-server` input. -/
def serverErrMsg : String := "upterm-server is required"

/-- The `wait-timeout-minutes` check of `validateInputs`: when the input is
non-empty (JS truthiness of a string), `parseInt(waitTimeout, 10)` must
yield a value in `[0, 1440]`.  The source's additional
`!Number.isInteger(parsedTimeout)` disjunct is vacuous here: `parseInt`
with radix 10 returns an integral value whenever it does not return `NaN`
(our `none`), and any overflow-to-infinity case is already outside the
range bound. -/
def validateWaitTimeout (waitTimeout : String) : Except String Unit :=
  if waitTimeout ≠ "" then
    match jsParseInt10 waitTimeout with
    | none => .error timeoutErrMsg
    | some t => if t < 0 || t > 1440 then .error timeoutErrMsg else .ok ()
  else .ok ()

/-- `validateInputs` (src/index.ts lines 94-107): the timeout check runs
first, then the server-address presence check. -/
def validateInputs (waitTimeout uptermServer : String) : Except String Unit :=
  match validateWaitTimeout waitTimeout with
  | .error e => .error e
  | .ok _ => if uptermServer = "" then .error serverErrMsg else .ok ()

/-- Modelled from the spec: "t parses as a base-10 integer AND 0 ≤ t ≤ 1440".
The whole string (after an optional sign) must consist of decimal digits;
used only to compare the spec's acceptance condition with the code's. -/
def specTimeoutOk (t : String) : Bool :=
  t = "" ||
    (let signAndRest : Int × List Char :=
      match t.data with
      | '-' :: rest => (-1, rest)
      | '+' :: rest => (1, rest)
      | _ => (1, t.data)
    !signAndRest.2.isEmpty && signAndRest.2.all Char.isDigit &&
      (0 ≤ signAndRest.1 * (digitsToNat signAndRest.2 : Int) &&
        signAndRest.1 * (digitsToNat signAndRest.2 : Int) ≤ 1440))

/-! ## Architecture mapping (src/index.ts lines 75-92) -/

/-- `getUptermArchitecture`: the total map from Node's `process.arch` to the
upterm release architecture name. -/
def getUptermArchitecture (nodeArch : String) : Option String :=
  if nodeArch = "x64" then some "amd64"
  else if nodeArch = "arm64" then some "arm64"
  else none

/-- The `validateArchitecture` error text for an unsupported architecture. -/
def unsupportedArchMsg (arch : String) : String :=
  "Unsupported architecture for upterm: " ++ arch ++ ". Only x64 and arm64 are supported."

/-- `validateArchitecture`: resolve the architecture or fail with the
unsupported-architecture error. -/
def validateArchitecture (arch : String) : Except String String :=
  match getUptermArchitecture arch with
  | none => .error (unsupportedArchMsg arch)
  | some a => .ok a

/-! ## Allowed users (src/index.ts lines 219-235) -/

/-- Is `c` one of the delimiter characters of the JS split regex
`/[\s\n,]+/` (any whitespace or a comma)? -/
def isUserDelimiter (c : Char) : Bool := isJsWhitespace c || c = ','

/-- Split a character list on runs of separator characters, dropping empty
pieces; `cur` accumulates the current token in reverse. -/
def splitRuns (sep : Char → Bool) (cur : List Char) : List Char → List (List Char)
  | [] => if cur = [] then [] else [cur.reverse]
  | c :: cs =>
    if sep c then
      if cur = [] then splitRuns sep [] cs
      else cur.reverse :: splitRuns sep [] cs
    else splitRuns sep (c :: cur) cs

/-- `core.getInput('limit-access-to-users').split(/[\s\n,]+/).filter(Boolean)`:
splitting on runs of delimiters and dropping empty pieces. -/
def splitUsers (input : String) : List String :=
  (splitRuns isUserDelimiter [] input.data).map fun cs => ⟨cs⟩

/-- `[...new Set(xs)]`: JavaScript `Set` iteration order is insertion order,
so spreading a `Set` de-duplicates keeping the first occurrence. -/
def jsSetDedupAux (seen : List String) : List String → List String
  | [] => []
  | x :: xs =>
    if x ∈ seen then jsSetDedupAux seen xs
    else x :: jsSetDedupAux (x :: seen) xs

/-- First-occurrence de-duplication, as performed by `[...new Set(xs)]`. -/
def jsSetDedup (l : List String) : List String := jsSetDedupAux [] l

/-- `getAllowedUsers`: split the `limit-access-to-users` input, optionally
push the triggering actor when `limit-access-to-actor` is the string
`"true"`, then de-duplicate via a `Set`. -/
def getAllowedUsers (usersInput limitToActor actor : String) : List String :=
  let allowedUsers := splitUsers usersInput
  let allowedUsers :=
    if limitToActor = "true" then allowedUsers ++ [actor] else allowedUsers
  jsSetDedup allowedUsers

/-- `buildAuthorizedKeysParameter`: one single-quoted `--github-user` flag
per user, space-joined, with a trailing space. -/
def buildAuthorizedKeysParameter (allowedUsers : List String) : String :=
  String.intercalate " "
      (allowedUsers.map fun user => "--github-user " ++ "'" ++ user ++ "'")
    ++ " "

/-! ## `execShellCommand` empty-command guard (src/helpers.ts lines 13-18) -/

/-- Outcome of the first step of `execShellCommand`: either the promise is
rejected before `spawn` is reached, or a child process is spawned for the
command. -/
inductive ExecStart where
  | rejected (message : String)
  | spawned (cmd : String)
deriving DecidableEq

/-- The guard at the top of `execShellCommand`: `if (!cmd.trim())` rejects
blank commands before any `spawn` call. -/
def execShellCommandStart (cmd : String) : ExecStart :=
  if jsTrim cmd = "" then .rejected "Command cannot be empty"
  else .spawned cmd

/-- Number of child processes created by the given start outcome. -/
def spawnCount : ExecStart → Nat
  | .rejected _ => 0
  | .spawned _ => 1

/-! ## Session monitor (`monitorSession`, src/index.ts lines 400-445) -/

/-- Result of the per-tick `upterm session current` status query: its stdout
on success, or the stringified error on failure. -/
inductive StatusResult where
  | ok (output : String)
  | err (message : String)
deriving DecidableEq

/-- The filesystem / subprocess observations one iteration of the monitor
loop can make.  `timeoutFlagAfterError` is the second read of the watchdog
flag file performed inside the `catch` handler (the flag may appear
between the first check and the status query). -/
structure MonitorObs where
  continueAtRoot : Bool
  continueAtWorkspace : Bool
  timeoutFlag : Bool
  socketExists : Bool
  statusResult : StatusResult
  timeoutFlagAfterError : Bool
deriving DecidableEq

/-- How one monitor iteration ends. -/
inductive TickOutcome where
  | exitContinue
  | exitTimeout
  | exitDaemonQuit
  | exitConnectionLost (connectionError : String)
  | fatal (message : String)
  | keepLooping (status : String)
deriving DecidableEq

/-- One monitor iteration together with the `core.info`/`core.error` lines
it emits. -/
structure TickResult where
  outcome : TickOutcome
  logs : List String
deriving DecidableEq

/-- `continueFileExists`: the continue file is accepted at either the
root-level path or the workspace-relative path. -/
def continueFileExists (obs : MonitorObs) : Bool :=
  obs.continueAtRoot || obs.continueAtWorkspace

/-- Log line for the continue-signal exit. -/
def continueExitMessage : String :=
  "Exiting debugging session because '/continue' file was created"

/-- Log line for the daemon-quit exit. -/
def daemonQuitMessage : String := "Exiting debugging session: 'upterm' quit"

/-- `logTimeoutMessage`: the two-part timeout message. -/
def timeoutLogMessages : List String :=
  ["Upterm session timed out - no client connected within the specified wait-timeout-minutes",
   "The session was automatically shut down to prevent unnecessary resource usage"]

/-- The message triple logged when the status query fails with a
connection-loss signature. -/
def unexpectedEndLogs (e : String) : List String :=
  ["Upterm session appears to have ended unexpectedly",
   "Connection error: " ++ e,
   "This may indicate the upterm process crashed or was terminated externally"]

/-- Does the list start with the given needle? -/
def listStartsWith : List Char → List Char → Bool
  | _, [] => true
  | [], _ :: _ => false
  | c :: cs, d :: ds => c = d && listStartsWith cs ds

/-- JavaScript `String.prototype.includes`, on the character lists. -/
def listContainsSub (needle : List Char) : List Char → Bool
  | [] => listStartsWith [] needle
  | c :: t => listStartsWith (c :: t) needle || listContainsSub needle t

/-- `errorMessage.includes('connection refused') ||
errorMessage.includes('No such file or directory')`. -/
def errorIsConnectionLoss (msg : String) : Bool :=
  listContainsSub "connection refused".data msg.data ||
    listContainsSub "No such file or directory".data msg.data

/-- One iteration of the `monitorSession` loop body, in the source's check
order: continue file, watchdog flag, socket existence, status query (with
the watchdog flag re-checked inside the `catch` handler before the error
text is pattern-matched). -/
def monitorTick (obs : MonitorObs) : TickResult :=
  if continueFileExists obs then ⟨.exitContinue, [continueExitMessage]⟩
  else if obs.timeoutFlag then ⟨.exitTimeout, timeoutLogMessages⟩
  else if !obs.socketExists then ⟨.exitDaemonQuit, [daemonQuitMessage]⟩
  else
    match obs.statusResult with
    | .ok s => ⟨.keepLooping s, [s]⟩
    | .err e =>
      if obs.timeoutFlagAfterError then ⟨.exitTimeout, timeoutLogMessages⟩
      else if errorIsConnectionLoss e then ⟨.exitConnectionLost e, unexpectedEndLogs e⟩
      else ⟨.fatal ("Failed to get upterm session status: " ++ e), []⟩

/-- End state of a whole monitor run over a finite trace of per-tick
observations. -/
inductive RunResult where
  | stopped (outcome : TickOutcome) (logs : List String)
  | failed (message : String)
  | outOfObservations
deriving DecidableEq

/-- The `monitorSession` loop: ticks run in order; a `keepLooping` outcome
sleeps and continues, a `fatal` outcome is thrown (aborting the run), and
every other outcome breaks out of the loop. -/
def monitorRun : List MonitorObs → RunResult
  | [] => .outOfObservations
  | obs :: rest =>
    match monitorTick obs with
    | ⟨.keepLooping _, _⟩ => monitorRun rest
    | ⟨.fatal msg, _⟩ => .failed msg
    | ⟨o, logs⟩ => .stopped o logs

/-! ## Dependency installer (`installDependencies`, src/index.ts lines 126-171) -/

/-- The environment an install run sees: the Node architecture string, whether
the downloaded archive contains the upterm binary at the expected path, and
whether the multiplexer (`command -v tmux`) is already installed. -/
structure InstallEnv where
  nodeArch : String
  archiveHasBinary : Bool
  tmuxInstalled : Bool
deriving DecidableEq

/-- The externally observable calls one install run performs. -/
structure InstallTrace where
  networkDownloads : Nat
  packageManagerCalls : Nat
deriving DecidableEq

/-- The `linux` handler: validate the architecture, unconditionally download
and extract the release archive (`tc.downloadTool`, one network fetch), check
the binary landed, add the fresh extraction directory to `PATH`, then run the
shell predicate that installs tmux via apt-get only when `command -v tmux`
fails. -/
def installOnLinux (env : InstallEnv) : Except String InstallTrace :=
  match validateArchitecture env.nodeArch with
  | .error e => .error e
  | .ok _ =>
    if !env.archiveHasBinary then
      .error "Downloaded upterm archive does not contain binary at expected path"
    else
      .ok { networkDownloads := 1,
            packageManagerCalls := if env.tmuxInstalled then 0 else 1 }

/-- The `win32` handler: same shape as linux with `upterm.exe` and pacman. -/
def installOnWin32 (env : InstallEnv) : Except String InstallTrace :=
  match validateArchitecture env.nodeArch with
  | .error e => .error e
  | .ok _ =>
    if !env.archiveHasBinary then
      .error "Downloaded upterm archive does not contain upterm.exe at expected path"
    else
      .ok { networkDownloads := 1,
            packageManagerCalls := if env.tmuxInstalled then 0 else 1 }

/-- The `darwin` handler: `brew install owenthereal/upterm/upterm tmux`,
invoked unconditionally (one package-manager call, no tool-cache download). -/
def installOnDarwin : Except String InstallTrace :=
  .ok { networkDownloads := 0, packageManagerCalls := 1 }

/-- `installDependencies`: dispatch on the platform; a missing handler is the
unsupported-platform error, and any handler failure is wrapped with the
platform name (JS stringifies the inner `Error` as `Error: <message>`). -/
def installDependencies (platform : String) (env : InstallEnv) :
    Except String InstallTrace :=
  let handler : Option (Except String InstallTrace) :=
    if platform = "linux" then some (installOnLinux env)
    else if platform = "win32" then some (installOnWin32 env)
    else if platform = "darwin" then some installOnDarwin
    else none
  match handler with
  | none => .error ("Unsupported platform: " ++ platform)
  | some (.error e) =>
    .error ("Failed to install dependencies on " ++ platform ++ ": Error: " ++ e)
  | some (.ok t) => .ok t

/-! ## known_hosts provisioning (earlier `run` variant, src/index.ts
lines 550-572 of the concatenated source) -/

/-- awk's default field splitting: runs of blanks, leading blanks ignored. -/
def awkFields (line : String) : List String :=
  (splitRuns (fun c => c = ' ' || c = '\t') [] line.data).map fun cs => ⟨cs⟩

/-- awk's 1-based `$n`, empty when the field does not exist. -/
def awkField (line : String) (n : Nat) : String := (awkFields line).getD (n - 1) ""

/-- `awk '{ print "@cert-authority * " $2 " " $3 }'` applied to one
known_hosts line. -/
def certAuthorityLine (line : String) : String :=
  "@cert-authority * " ++ awkField line 2 ++ " " ++ awkField line 3

/-- A line is an `@cert-authority` entry scoped to every host (`*`). -/
def isCertAuthorityMarked (line : String) : Bool :=
  awkField line 1 = "@cert-authority" && awkField line 2 = "*"

/-- The `~/.ssh/known_hosts` contents (as lines) together with the
`core.info` lines the block emits. -/
structure ProvisionState where
  knownHosts : List String
  infoLog : List String
deriving DecidableEq

/-- Splitting a character list at newline characters (`splitOn "\n"`
semantics: the empty text is one empty line). -/
def splitLinesAux (cur : List Char) : List Char → List String
  | [] => [⟨cur.reverse⟩]
  | c :: cs =>
    if c = '\n' then (⟨cur.reverse⟩ : String) :: splitLinesAux [] cs
    else splitLinesAux (c :: cur) cs

/-- Lines of a text blob. -/
def splitLines (s : String) : List String := splitLinesAux [] s.data

/-- Join lines back into the file text (what `cat` prints). -/
def joinLines : List String → String
  | [] => ""
  | [l] => l
  | l :: ls => l ++ "\n" ++ joinLines ls

/-- Log line announcing the caller-supplied branch. -/
def appendingKnownHostsMessage : String :=
  "Appending ssh-known-hosts to ~/.ssh/known_hosts. Contents of ~/.ssh/known_hosts:"

/-- Log line announcing the key-scan branch. -/
def autoGenerateKnownHostsMessage : String :=
  "Auto-generating ~/.ssh/known_hosts by attempting connection to uptermd.upterm.dev"

/-- `ssh-keyscan uptermd.upterm.dev 2> /dev/null >> ~/.ssh/known_hosts`:
append the scanned entries to the file. -/
def runKeyscanAppend (scan : List String) (st : ProvisionState) : ProvisionState :=
  { st with knownHosts := st.knownHosts ++ scan }

/-- `cat <(cat ~/.ssh/known_hosts | awk '...') >> ~/.ssh/known_hosts`: for
every line currently in the file, append its `@cert-authority` derivative. -/
def runCertAuthorityAppend (st : ProvisionState) : ProvisionState :=
  { st with knownHosts := st.knownHosts ++ st.knownHosts.map certAuthorityLine }

/-- The known_hosts block of the earlier `run` variant: if the
`ssh-known-hosts` input is non-empty, append it verbatim and echo the whole
file back via `core.info`; otherwise announce the probe, append the
key-scan output, and append the awk-generated `@cert-authority` lines. -/
def setupKnownHosts (sshKnownHosts : String) (scan : List String)
    (st : ProvisionState) : ProvisionState :=
  if sshKnownHosts ≠ "" then
    let st := { st with infoLog := st.infoLog ++ [appendingKnownHostsMessage] }
    let st := { st with knownHosts := st.knownHosts ++ splitLines sshKnownHosts }
    { st with infoLog := st.infoLog ++ [joinLines st.knownHosts] }
  else
    let st := { st with infoLog := st.infoLog ++ [autoGenerateKnownHostsMessage] }
    runCertAuthorityAppend (runKeyscanAppend scan st)

/-! ## Readiness polling (`waitForUptermReady`, src/index.ts lines 371-382)
and diagnostics (`collectDiagnostics`, lines 301-369) -/

/-- `UPTERM_READY_MAX_RETRIES`. -/
def UPTERM_READY_MAX_RETRIES : Nat := 10

/-- The inputs `collectDiagnostics` gathers: results of its filesystem reads
and external commands (`Except` models the `try`/`catch` branches). -/
structure DiagInput where
  baseDir : String
  socketDir : String
  socketDirExists : Bool
  socketDirFiles : List String
  uptermLogExists : Bool
  uptermLogRead : Except String String
  tmuxSessions : Except String String
  tmuxErrorLog : Except String String
  commandLog : Except String String
  uptermVersion : Except String String
  xdgRuntimeDir : Option String
  userName : Option String
  uid : Option Nat

/-- The bug-report pointer appended last to the diagnostics blob. -/
def reportPointer : String :=
  "\nPlease report this issue with the above diagnostics at: https://github.com/owenthereal/action-upterm/issues"

/-- `collectDiagnostics`: assemble the single human-readable diagnostics
string, mirroring the source's append order and conditionals. -/
def collectDiagnostics (d : DiagInput) : String :=
  let s := "Failed to start upterm - socket not found after maximum retries.\n\nDiagnostics:\n"
  let s := s ++ "- Upterm data directory: " ++ d.baseDir ++ "\n"
  let s := s ++ "- Expected socket directory: " ++ d.socketDir ++ "\n"
  let s :=
    if d.socketDirExists then
      let s := s ++ "- Socket directory contains: " ++
        String.intercalate ", " d.socketDirFiles ++ "\n"
      if d.uptermLogExists then
        match d.uptermLogRead with
        | .ok content => s ++ "- Upterm log:\n" ++ content ++ "\n"
        | .error e => s ++ "- Could not read upterm.log: " ++ e ++ "\n"
      else s
    else s ++ "- Socket directory does not exist\n"
  let s :=
    match d.tmuxSessions with
    | .ok out => s ++ "- Tmux sessions: " ++ jsTrim out ++ "\n"
    | .error e => s ++ "- Could not check tmux sessions: " ++ e ++ "\n"
  let s :=
    match d.tmuxErrorLog with
    | .ok out =>
      if jsTrim out ≠ "No tmux error log" then
        s ++ "- Tmux error log:\n" ++ jsTrim out ++ "\n"
      else s
    | .error e => s ++ "- Could not read tmux error log: " ++ e ++ "\n"
  let s :=
    match d.commandLog with
    | .ok out =>
      if jsTrim out ≠ "No command log" then
        s ++ "- Upterm command output:\n" ++ jsTrim out ++ "\n"
      else s
    | .error e => s ++ "- Could not read command log: " ++ e ++ "\n"
  let s :=
    match d.uptermVersion with
    | .ok out => s ++ "- Upterm binary check: " ++ jsTrim out ++ "\n"
    | .error e => s ++ "- Could not check upterm binary: " ++ e ++ "\n"
  let s := s ++ "- XDG_RUNTIME_DIR: " ++ d.xdgRuntimeDir.getD "not set" ++ "\n"
  let s := s ++ "- USER: " ++ d.userName.getD "not set" ++ "\n"
  let s := s ++ "- UID: " ++
    (match d.uid with | some u => toString u | none => "unknown") ++ "\n"
  s ++ reportPointer

/-- The retry loop of `waitForUptermReady`: `socketAt i` is whether the
socket file exists when the `i`-th (0-based) check runs.  Returns the
number of existence checks performed together with the outcome. -/
def waitReadyGo (socketAt : Nat → Bool) (diagnostics : String) :
    Nat → Nat → Nat × Except String Unit
  | 0, checks => (checks, .error diagnostics)
  | fuel + 1, checks =>
    if socketAt checks then (checks + 1, .ok ())
    else waitReadyGo socketAt diagnostics fuel (checks + 1)

/-- `waitForUptermReady`: up to `UPTERM_READY_MAX_RETRIES` socket-existence
checks, one fixed sleep between consecutive checks; exhausting them throws
the assembled diagnostics blob as a single error. -/
def waitForUptermReady (socketAt : Nat → Bool) (diagnostics : String) :
    Nat × Except String Unit :=
  waitReadyGo socketAt diagnostics UPTERM_READY_MAX_RETRIES 0

/-! ## Helper lemmas -/

theorem jsSetDedupAux_nodup (seen l : List String) :
    (jsSetDedupAux seen l).Nodup ∧ ∀ x ∈ jsSetDedupAux seen l, x ∉ seen := by
  induction l generalizing seen with
  | nil => simp [jsSetDedupAux]
  | cons x xs ih =>
    by_cases hx : x ∈ seen
    · simpa [jsSetDedupAux, hx] using ih seen
    · obtain ⟨hnd, hmem⟩ := ih (x :: seen)
      refine ⟨?_, ?_⟩
      · simp only [jsSetDedupAux, if_neg hx, List.nodup_cons]
        exact ⟨fun hc => (hmem x hc) (List.mem_cons_self x seen), hnd⟩
      · intro y hy
        simp only [jsSetDedupAux, if_neg hx, List.mem_cons] at hy
        rcases hy with rfl | hy
        · exact hx
        · exact fun hc => (hmem y hy) (List.mem_cons_of_mem _ hc)

theorem jsSetDedupAux_mem (l : List String) (seen : List String) (u : String) :
    u ∈ jsSetDedupAux seen l ↔ u ∈ l ∧ u ∉ seen := by
  induction l generalizing seen with
  | nil => simp [jsSetDedupAux]
  | cons x xs ih =>
    by_cases hx : x ∈ seen
    · simp only [jsSetDedupAux, if_pos hx, ih, List.mem_cons]
      constructor
      · rintro ⟨h1, h2⟩; exact ⟨Or.inr h1, h2⟩
      · rintro ⟨h1 | h1, h2⟩
        · subst h1; exact absurd hx h2
        · exact ⟨h1, h2⟩
    · simp only [jsSetDedupAux, if_neg hx, List.mem_cons, ih, List.mem_cons]
      constructor
      · rintro (rfl | ⟨h1, h2⟩)
        · exact ⟨Or.inl rfl, hx⟩
        · exact ⟨Or.inr h1, fun hc => h2 (Or.inr hc)⟩
      · rintro ⟨rfl | h1, h2⟩
        · exact Or.inl rfl
        · by_cases hux : u = x
          · exact Or.inl hux
          · exact Or.inr ⟨h1, fun hc => hc.elim hux h2⟩

theorem jsSetDedup_nodup (l : List String) : (jsSetDedup l).Nodup :=
  (jsSetDedupAux_nodup [] l).1

theorem jsSetDedup_mem (l : List String) (u : String) :
    u ∈ jsSetDedup l ↔ u ∈ l := by
  simpa [jsSetDedup] using jsSetDedupAux_mem l [] u

/-! ## Claim theorems -/

/-- Claim C9: the architecture mapping is a total pure function of its input
string: `"x64"` maps to `"amd64"`, `"arm64"` maps to `"arm64"`, and every
other input (such as `"ppc64le"`) yields the unsupported-architecture error
instead of a silent default. -/
theorem C9_architecture_mapping (s : String)
    (h1 : s ≠ "x64") (h2 : s ≠ "arm64") :
    getUptermArchitecture "x64" = some "amd64" ∧
    getUptermArchitecture "arm64" = some "arm64" ∧
    getUptermArchitecture s = none ∧
    validateArchitecture s = .error (unsupportedArchMsg s) := by
  refine ⟨rfl, rfl, ?_, ?_⟩
  · simp [getUptermArchitecture, h1, h2]
  · simp [validateArchitecture, getUptermArchitecture, h1, h2]

theorem C9_architecture_mapping_witness :
    getUptermArchitecture "x64" = some "amd64" ∧
    getUptermArchitecture "arm64" = some "arm64" ∧
    getUptermArchitecture "ppc64le" = none ∧
    validateArchitecture "ppc64le" = .error (unsupportedArchMsg "ppc64le") :=
  C9_architecture_mapping "ppc64le" (by decide) (by decide)

/-- Claim C3, counterexample: the claim says validation accepts `t` iff `t`
is empty or `t` parses as a base-10 integer in `[0, 1440]`, but the code
uses JavaScript `parseInt`, which ignores trailing garbage: `"12.5"` is not
a base-10 integer, yet validation accepts it (as 12). -/
theorem C3_timeout_validation_counterexample :
    validateWaitTimeout "12.5" = .ok () ∧ specTimeoutOk "12.5" = false := by
  exact ⟨rfl, rfl⟩

/-- Claim C3 (amended): validation accepts `t` iff `t` is empty or the
JavaScript `parseInt(t, 10)` value (longest sign-and-digit prefix; trailing
characters ignored) lies in `[0, 1440]`; in particular `"1500"` and
`"invalid"` are both rejected with the same fixed error message, and
`"0"`, `"1440"` and `""` are accepted. -/
theorem C3_timeout_validation_amended (t : String) :
    (validateWaitTimeout t = .ok () ↔
      (t = "" ∨ ∃ v, jsParseInt10 t = some v ∧ 0 ≤ v ∧ v ≤ 1440)) ∧
    validateWaitTimeout "1500" = .error timeoutErrMsg ∧
    validateWaitTimeout "invalid" = .error timeoutErrMsg ∧
    validateWaitTimeout "0" = .ok () ∧
    validateWaitTimeout "1440" = .ok () ∧
    validateWaitTimeout "" = .ok () := by
  refine ⟨?_, rfl, rfl, rfl, rfl, rfl⟩
  by_cases h : t = ""
  · subst h; simp [validateWaitTimeout]
  · simp only [validateWaitTimeout, if_pos h, h, false_or]
    cases hp : jsParseInt10 t with
    | none => simp
    | some v =>
      dsimp only
      by_cases hv : (v < 0 || v > 1440) = true
      · rw [if_pos hv]
        simp only [Bool.or_eq_true, decide_eq_true_eq] at hv
        constructor
        · intro hc; exact absurd hc (by simp)
        · rintro ⟨w, hw, hw0, hw1⟩
          injection hw with hw; subst hw
          omega
      · rw [if_neg hv]
        simp only [Bool.or_eq_true, decide_eq_true_eq, not_or, not_lt] at hv
        exact ⟨fun _ => ⟨v, rfl, by omega, by omega⟩, fun _ => rfl⟩

/-- Claim C6, counterexample: the claim says an empty server address is
rejected with the fixed message `"upterm-server is required"` regardless of
all other fields, including an invalid timeout string — but `validateInputs`
checks the timeout first, so with timeout `"invalid"` and an empty server
the reported error is the timeout message, not the server message. -/
theorem C6_server_required_counterexample :
    validateInputs "invalid" "" = .error timeoutErrMsg ∧
    timeoutErrMsg ≠ serverErrMsg := by
  exact ⟨rfl, by decide⟩

/-- Claim C6 (amended): with an empty server address validation always
rejects; the fixed message `"upterm-server is required"` is reported
whenever the timeout string passes its own check (empty or in range), while
an invalid timeout string is reported with the timeout message first. -/
theorem C6_server_required_amended (waitTimeout : String) :
    validateInputs waitTimeout "" ≠ .ok () ∧
    (validateWaitTimeout waitTimeout = .ok () →
      validateInputs waitTimeout "" = .error serverErrMsg) := by
  unfold validateInputs
  cases h : validateWaitTimeout waitTimeout with
  | error e => simp
  | ok u => cases u; simp

theorem C6_server_required_amended_witness :
    validateInputs "30" "" ≠ .ok () ∧
    validateInputs "30" "" = .error serverErrMsg :=
  ⟨(C6_server_required_amended "30").1, (C6_server_required_amended "30").2 rfl⟩

/-- Claim C10: for every command string that is empty or consists only of
whitespace, `execShellCommand` rejects with `"Command cannot be empty"`
before reaching `spawn`, so no child process is created for a blank
command. -/
theorem C10_blank_command_rejected (cmd : String)
    (h : cmd.data.all isJsWhitespace = true) :
    execShellCommandStart cmd = .rejected "Command cannot be empty" ∧
    spawnCount (execShellCommandStart cmd) = 0 := by
  have hd : cmd.data.dropWhile isJsWhitespace = [] := by
    rw [List.dropWhile_eq_nil_iff]
    intro x hx
    exact List.all_eq_true.mp h x hx
  have ht : jsTrim cmd = "" := by
    unfold jsTrim
    rw [hd]
    rfl
  unfold execShellCommandStart
  rw [if_pos ht]
  exact ⟨rfl, rfl⟩

theorem C10_blank_command_rejected_witness :
    execShellCommandStart " \t " = .rejected "Command cannot be empty" ∧
    spawnCount (execShellCommandStart " \t ") = 0 :=
  C10_blank_command_rejected " \t " (by decide)

/-- Claim C7: for the authorized-principal input `"alice,bob,alice"` with
actor-inclusion disabled, the launcher's authorization parameter contains
exactly the two distinct single-quoted `--github-user` flags, in
first-occurrence order; in general the de-duplication keeps exactly one
occurrence of each identifier (no duplicates, same membership, one flag per
distinct identifier). -/
theorem C7_authorized_users (actor : String) (l : List String) :
    getAllowedUsers "alice,bob,alice" "false" actor = ["alice", "bob"] ∧
    buildAuthorizedKeysParameter (getAllowedUsers "alice,bob,alice" "false" actor) =
      "--github-user 'alice' --github-user 'bob' " ∧
    (jsSetDedup l).Nodup ∧
    (∀ u, u ∈ jsSetDedup l ↔ u ∈ l) ∧
    (jsSetDedup l).length = l.toFinset.card := by
  have hbase : getAllowedUsers "alice,bob,alice" "false" actor = ["alice", "bob"] := by
    simp only [getAllowedUsers]
    rw [if_neg (by decide : ¬("false" = "true"))]
    decide
  refine ⟨hbase, by rw [hbase]; decide, jsSetDedup_nodup l, jsSetDedup_mem l, ?_⟩
  have h1 : (jsSetDedup l).toFinset = l.toFinset := by
    ext u
    simp [List.mem_toFinset, jsSetDedup_mem]
  calc (jsSetDedup l).length = (jsSetDedup l).toFinset.card :=
        (List.toFinset_card_of_nodup (jsSetDedup_nodup l)).symm
    _ = l.toFinset.card := by rw [h1]

/-- Claim C4: in every monitor tick the exit conditions are evaluated in the
fixed priority order continue-signal, watchdog flag, socket absence, status
query: a continue file at either accepted location stops the run with the
continue-exit message even when the watchdog flag is simultaneously set, and
(continue absent) a present watchdog flag stops the run with the two-part
timeout message regardless of the socket or status-query state of the same
tick. -/
theorem C4_exit_priority (obs : MonitorObs) (rest : List MonitorObs) :
    (continueFileExists obs = true →
      monitorRun (obs :: rest) = .stopped .exitContinue [continueExitMessage]) ∧
    (continueFileExists obs = false → obs.timeoutFlag = true →
      monitorRun (obs :: rest) = .stopped .exitTimeout timeoutLogMessages) := by
  constructor
  · intro hc
    simp [monitorRun, monitorTick, hc]
  · intro hc ht
    simp [monitorRun, monitorTick, hc, ht]

theorem C4_exit_priority_witness :
    monitorRun [⟨true, false, true, true, .ok "s", false⟩] =
      .stopped .exitContinue [continueExitMessage] ∧
    monitorRun [⟨false, true, true, true, .ok "s", false⟩] =
      .stopped .exitContinue [continueExitMessage] ∧
    monitorRun [⟨false, false, true, false, .err "connection refused", true⟩] =
      .stopped .exitTimeout timeoutLogMessages :=
  ⟨(C4_exit_priority _ _).1 rfl, (C4_exit_priority _ _).1 rfl,
   (C4_exit_priority _ _).2 rfl rfl⟩

/-- Claim C5: when the per-tick status query fails, the monitor first
re-checks the watchdog flag and, if set, stops as a timeout; otherwise, if
the error text contains a connection-refused or socket-missing signature, it
logs the "ended unexpectedly" message group and stops rather than retrying;
every other status-query error is wrapped and propagated as a fatal error,
aborting the run instead of looping. -/
theorem C5_status_failure_handling (obs : MonitorObs) (rest : List MonitorObs)
    (e : String) (hc : continueFileExists obs = false)
    (ht : obs.timeoutFlag = false) (hs : obs.socketExists = true)
    (he : obs.statusResult = .err e) :
    (obs.timeoutFlagAfterError = true →
      monitorRun (obs :: rest) = .stopped .exitTimeout timeoutLogMessages) ∧
    (obs.timeoutFlagAfterError = false → errorIsConnectionLoss e = true →
      monitorRun (obs :: rest) =
        .stopped (.exitConnectionLost e) (unexpectedEndLogs e)) ∧
    (obs.timeoutFlagAfterError = false → errorIsConnectionLoss e = false →
      monitorRun (obs :: rest) =
        .failed ("Failed to get upterm session status: " ++ e)) := by
  refine ⟨?_, ?_, ?_⟩
  · intro h1
    simp [monitorRun, monitorTick, hc, ht, hs, he, h1]
  · intro h1 h2
    simp [monitorRun, monitorTick, hc, ht, hs, he, h1, h2]
  · intro h1 h2
    simp [monitorRun, monitorTick, hc, ht, hs, he, h1, h2]

theorem C5_status_failure_handling_witness :
    monitorRun [⟨false, false, false, true, .err "x", true⟩] =
      .stopped .exitTimeout timeoutLogMessages ∧
    monitorRun [⟨false, false, false, true,
        .err "Error: connect: connection refused", false⟩] =
      .stopped (.exitConnectionLost "Error: connect: connection refused")
        (unexpectedEndLogs "Error: connect: connection refused") ∧
    monitorRun [⟨false, false, false, true, .err "weird failure", false⟩] =
      .failed ("Failed to get upterm session status: " ++ "weird failure") :=
  ⟨(C5_status_failure_handling ⟨false, false, false, true, .err "x", true⟩ [] "x"
      rfl rfl rfl rfl).1 rfl,
   (C5_status_failure_handling
      ⟨false, false, false, true, .err "Error: connect: connection refused", false⟩
      [] "Error: connect: connection refused" rfl rfl rfl rfl).2.1 rfl (by decide),
   (C5_status_failure_handling ⟨false, false, false, true, .err "weird failure", false⟩
      [] "weird failure" rfl rfl rfl rfl).2.2 rfl (by decide)⟩

/-- Claim C1, counterexample: the claim says a run of the installer on an
environment where the daemon binary and the multiplexer are already present
performs zero network calls and zero package-manager calls — but the linux
handler unconditionally downloads the release archive (`tc.downloadTool`),
so even with everything present the run performs one network download. -/
theorem C1_installer_idempotence_counterexample :
    installDependencies "linux" ⟨"x64", true, true⟩ =
      .ok { networkDownloads := 1, packageManagerCalls := 0 } ∧
    ¬ (∀ t, installDependencies "linux" ⟨"x64", true, true⟩ = .ok t →
        t.networkDownloads = 0 ∧ t.packageManagerCalls = 0) := by
  constructor
  · rfl
  · intro hAll
    have h := hAll { networkDownloads := 1, packageManagerCalls := 0 } rfl
    exact absurd h.1 (by decide)

/-- Claim C1 (amended): re-running the installer is safe but not call-free —
on linux and windows, with a supported architecture, a well-formed archive
and the multiplexer already installed, a run performs exactly one network
download of the daemon archive (into a fresh directory) and zero
package-manager calls; the package manager is only invoked when the
multiplexer is absent (and, on macOS, unconditionally). -/
theorem C1_installer_idempotence_amended (platform : String) (env : InstallEnv)
    (hp : platform = "linux" ∨ platform = "win32")
    (ha : env.nodeArch = "x64" ∨ env.nodeArch = "arm64")
    (hb : env.archiveHasBinary = true) (htm : env.tmuxInstalled = true) :
    installDependencies platform env =
      .ok { networkDownloads := 1, packageManagerCalls := 0 } := by
  rcases hp with hp | hp <;> subst hp <;> rcases ha with ha | ha <;>
    simp [installDependencies, installOnLinux, installOnWin32,
      validateArchitecture, getUptermArchitecture, ha, hb, htm]

theorem C1_installer_idempotence_amended_witness :
    installDependencies "linux" ⟨"arm64", true, true⟩ =
      .ok { networkDownloads := 1, packageManagerCalls := 0 } :=
  C1_installer_idempotence_amended "linux" ⟨"arm64", true, true⟩
    (Or.inl rfl) (Or.inr rfl) rfl rfl

/-- A key-scan result with two entries for the well-known relay, as
`ssh-keyscan uptermd.upterm.dev` typically returns one line per key type. -/
def scanTwoKeys : List String :=
  ["uptermd.upterm.dev ssh-rsa AAAAkeyone", "uptermd.upterm.dev ssh-ed25519 AAAAkeytwo"]

/-- Claim C2, counterexample: the claim says the probe branch appends a
single `@cert-authority` trust line derived from the relay's key material —
but the awk pipeline emits one `@cert-authority * ...` line per line of the
known_hosts file, so a key-scan returning two keys yields two such lines. -/
theorem C2_trust_anchor_counterexample :
    (setupKnownHosts "" scanTwoKeys ⟨[], []⟩).knownHosts =
      scanTwoKeys ++
        ["@cert-authority * ssh-rsa AAAAkeyone",
         "@cert-authority * ssh-ed25519 AAAAkeytwo"] ∧
    (setupKnownHosts "" scanTwoKeys ⟨[], []⟩).knownHosts.countP
        isCertAuthorityMarked = 2 ∧
    (2 : Nat) ≠ 1 := by
  refine ⟨by decide, by decide, by decide⟩

/-- Claim C2 (amended): the trust-anchor setup of the earlier `run` variant
has exactly two mutually exclusive branches — non-empty caller trust text is
appended verbatim and the resulting file is echoed back; otherwise the
well-known relay is key-scanned, the scanned entries are appended, and one
`@cert-authority` line scoped to `*` is appended for each line of the
resulting known_hosts file (one per scanned key when the file started
empty), derived from that line's key type and key material. -/
theorem C2_trust_anchor_amended (kh : String) (init scan : List String) :
    (kh ≠ "" →
      setupKnownHosts kh scan ⟨init, []⟩ =
        ⟨init ++ splitLines kh,
         [appendingKnownHostsMessage, joinLines (init ++ splitLines kh)]⟩) ∧
    (kh = "" →
      (setupKnownHosts kh scan ⟨init, []⟩).knownHosts =
        (init ++ scan) ++ (init ++ scan).map certAuthorityLine ∧
      (setupKnownHosts kh scan ⟨init, []⟩).infoLog =
        [autoGenerateKnownHostsMessage] ∧
      ((init ++ scan).map certAuthorityLine).length = (init ++ scan).length) := by
  constructor
  · intro h
    simp [setupKnownHosts, h]
  · intro h
    subst h
    simp [setupKnownHosts, runKeyscanAppend, runCertAuthorityAppend]

theorem C2_trust_anchor_amended_witness :
    setupKnownHosts "relay.example ssh-ed25519 AAAAcustom" scanTwoKeys ⟨[], []⟩ =
      ⟨[] ++ splitLines "relay.example ssh-ed25519 AAAAcustom",
       [appendingKnownHostsMessage,
        joinLines ([] ++ splitLines "relay.example ssh-ed25519 AAAAcustom")]⟩ ∧
    (setupKnownHosts "" scanTwoKeys ⟨[], []⟩).knownHosts =
      ([] ++ scanTwoKeys) ++ ([] ++ scanTwoKeys).map certAuthorityLine :=
  ⟨(C2_trust_anchor_amended "relay.example ssh-ed25519 AAAAcustom" [] scanTwoKeys).1
      (by decide),
   ((C2_trust_anchor_amended "" [] scanTwoKeys).2 rfl).1⟩

theorem waitReadyGo_checks_le (s : Nat → Bool) (d : String) :
    ∀ fuel start, (waitReadyGo s d fuel start).1 ≤ start + fuel := by
  intro fuel
  induction fuel with
  | zero => intro start; simp [waitReadyGo]
  | succ n ih =>
    intro start
    cases h : s start with
    | true => simp [waitReadyGo, h]
    | false =>
      simp only [waitReadyGo, h, Bool.false_eq_true, if_false]
      have := ih (start + 1)
      omega

theorem waitReadyGo_ok_first (s : Nat → Bool) (d : String) :
    ∀ fuel start, (waitReadyGo s d fuel start).2 = Except.ok () →
      start < (waitReadyGo s d fuel start).1 ∧
      s ((waitReadyGo s d fuel start).1 - 1) = true ∧
      ∀ j, start ≤ j → j < (waitReadyGo s d fuel start).1 - 1 → s j = false := by
  intro fuel
  induction fuel with
  | zero =>
    intro start h
    simp [waitReadyGo] at h
  | succ n ih =>
    intro start h
    cases hs : s start with
    | true =>
      refine ⟨?_, ?_, ?_⟩
      · simp [waitReadyGo, hs]
      · simp [waitReadyGo, hs]
      · intro j hj1 hj2
        simp [waitReadyGo, hs] at hj2
        omega
    | false =>
      have heq : waitReadyGo s d (n + 1) start = waitReadyGo s d n (start + 1) := by
        simp [waitReadyGo, hs]
      rw [heq] at h ⊢
      obtain ⟨ih1, ih2, ih3⟩ := ih (start + 1) h
      refine ⟨by omega, ih2, ?_⟩
      intro j hj1 hj2
      rcases Nat.eq_or_lt_of_le hj1 with heqj | hltj
      · subst heqj; exact hs
      · exact ih3 j (by omega) hj2

theorem waitReadyGo_exhausted (s : Nat → Bool) (d : String) :
    ∀ fuel start, (∀ i, start ≤ i → i < start + fuel → s i = false) →
      waitReadyGo s d fuel start = (start + fuel, Except.error d) := by
  intro fuel
  induction fuel with
  | zero => intro start _; simp [waitReadyGo]
  | succ n ih =>
    intro start hall
    have hs : s start = false := hall start (Nat.le_refl _) (by omega)
    have hrec := ih (start + 1) (fun i h1 h2 => hall i (by omega) (by omega))
    have harith : start + 1 + n = start + (n + 1) := by omega
    simp only [waitReadyGo, hs, Bool.false_eq_true, if_false]
    rw [hrec, harith]

/-- Claim C8: readiness waiting performs at most `UPTERM_READY_MAX_RETRIES`
(10) socket-existence checks, returning normally at the first check that
observes the socket; if no check observes it, the run makes exactly the
maximum number of checks and throws one structured diagnostics error, whose
text ends with the pointer to where to file a bug report. -/
theorem C8_bounded_readiness (socketAt : Nat → Bool) (d : DiagInput) :
    (waitForUptermReady socketAt (collectDiagnostics d)).1 ≤
      UPTERM_READY_MAX_RETRIES ∧
    ((waitForUptermReady socketAt (collectDiagnostics d)).2 = Except.ok () →
      socketAt ((waitForUptermReady socketAt (collectDiagnostics d)).1 - 1) = true ∧
      ∀ j < (waitForUptermReady socketAt (collectDiagnostics d)).1 - 1,
        socketAt j = false) ∧
    ((∀ i < UPTERM_READY_MAX_RETRIES, socketAt i = false) →
      waitForUptermReady socketAt (collectDiagnostics d) =
        (UPTERM_READY_MAX_RETRIES, Except.error (collectDiagnostics d))) ∧
    (∃ body, collectDiagnostics d = body ++ reportPointer) := by
  refine ⟨?_, ?_, ?_, ?_⟩
  · have h := waitReadyGo_checks_le socketAt (collectDiagnostics d)
      UPTERM_READY_MAX_RETRIES 0
    simpa [waitForUptermReady] using h
  · intro h
    obtain ⟨h1, h2, h3⟩ := waitReadyGo_ok_first socketAt (collectDiagnostics d)
      UPTERM_READY_MAX_RETRIES 0 h
    exact ⟨h2, fun j hj => h3 j (Nat.zero_le _) hj⟩
  · intro hall
    have h := waitReadyGo_exhausted socketAt (collectDiagnostics d)
      UPTERM_READY_MAX_RETRIES 0 (fun i _ h2 => hall i (by simpa using h2))
    simpa [waitForUptermReady] using h
  · exact ⟨_, rfl⟩

/-- A sample diagnostics input used to instantiate the readiness theorem. -/
def diagSample : DiagInput :=
  { baseDir := "/tmp/upterm-data"
    socketDir := "/tmp/upterm-data/runtime/upterm"
    socketDirExists := false
    socketDirFiles := []
    uptermLogExists := false
    uptermLogRead := .error "ENOENT"
    tmuxSessions := .ok "No tmux sessions"
    tmuxErrorLog := .ok "No tmux error log"
    commandLog := .ok "No command log"
    uptermVersion := .ok "upterm version 0.14.3"
    xdgRuntimeDir := some "/tmp/upterm-data/runtime"
    userName := none
    uid := some 1001 }

theorem C8_bounded_readiness_witness :
    waitForUptermReady (fun _ => false) (collectDiagnostics diagSample) =
      (UPTERM_READY_MAX_RETRIES, Except.error (collectDiagnostics diagSample)) ∧
    ((fun i => i == 3)
        ((waitForUptermReady (fun i => i == 3) (collectDiagnostics diagSample)).1 - 1)
        = true ∧
      ∀ j < (waitForUptermReady (fun i => i == 3)
          (collectDiagnostics diagSample)).1 - 1,
        (fun i => i == 3) j = false) :=
  ⟨(C8_bounded_readiness (fun _ => false) diagSample).2.2.1 (fun _ _ => rfl),
   (C8_bounded_readiness (fun i => i == 3) diagSample).2.1 rfl⟩

end ActionUpterm
